import Mathlib

/-!
Verification of the prompt-orchestration and structured-response layer of the
reporter-simulator game (the Gemini service module).

The source module exposes three orchestrator entry points
(`generateRandomArticle`, `analyzeArticle`, `generateReplyReaction`) built on
a bounded-retry wrapper (`retryRequest`), an era-context resolver
(`getEraContext`), prompt builders and a validating/fallback response layer.

Shallow-embedding conventions used throughout this file:
* The external generation capability is modelled as a function
  `op : Nat → Except GenError GenerateContentResponse` giving the outcome of
  each successive attempt (attempt index = number of previous attempts).
* JavaScript exceptions become `Except`; `undefined`-able values become
  `Option`; JS string truthiness is `strTruthy`.
* `setTimeout` waits are recorded in a trace (`RetryTrace.waits`) rather than
  performed; `RetryTrace.calls` counts how many times the wrapped operation
  was invoked.
* Machine reads of the wall clock (`new Date().getFullYear()`) become an
  explicit `currentYear` parameter.
-/

/-- Boolean test that the first character list starts with the second
(character-by-character), used to model JavaScript `String.includes`. -/
def leadsWith : List Char → List Char → Bool
  | _, [] => true
  | [], _ :: _ => false
  | c :: cs, p :: ps => c == p && leadsWith cs ps

/-- Boolean substring test on character lists, modelling
JavaScript `String.prototype.includes`. -/
def hasSub : List Char → List Char → Bool
  | s, pat =>
    match s with
    | [] => pat.isEmpty
    | _ :: rest => leadsWith s pat || hasSub rest pat

/-- Error value thrown by the generation capability, as inspected by the
retry wrapper: it may carry a `status` field, a `code` field and a `message`
string (each possibly absent, mirroring `error?.status` etc.). -/
structure GenError where
  status : Option Int
  code : Option Int
  message : Option String
  deriving DecidableEq

/-- The rate-limit test of `retryRequest` (line 11 of the source):
`error?.status === 429 || error?.code === 429 || error?.message?.includes('429')`. -/
def is429 (e : GenError) : Bool :=
  e.status == some 429 || e.code == some 429 ||
    (match e.message with
     | some m => hasSub m.toList "429".toList
     | none => false)

/-- Observable trace of one `retryRequest` run: the final result, the list of
backoff waits performed (in ms, in order), and the number of times the wrapped
operation was invoked. -/
structure RetryTrace (α : Type) where
  result : Except GenError α
  waits : List Nat
  calls : Nat

/-- Embedding of `retryRequest` (source lines 7-18).  `retries` and `delay`
mirror the parameters (defaults 3 and 2000); `attempt` indexes the call into
the operation behaviour `op`.  On an error that passes `is429` while retries
remain, it waits `delay`, then recurses with `retries - 1` and `delay * 2`;
otherwise it rethrows the original error unchanged. -/
def retryRequest {α : Type} (op : Nat → Except GenError α) :
    Nat → Nat → Nat → RetryTrace α
  | retries, delay, attempt =>
    match op attempt with
    | .ok v => ⟨.ok v, [], 1⟩
    | .error e =>
      match retries with
      | 0 => ⟨.error e, [], 1⟩
      | r + 1 =>
        if is429 e then
          let t := retryRequest op r (delay * 2) (attempt + 1)
          ⟨t.result, delay :: t.waits, t.calls + 1⟩
        else ⟨.error e, [], 1⟩

/-- The geometric wait list for a budget of `K + 1` waits starting at `delay`
is `delay` followed by the geometric wait list starting at `delay * 2`. -/
theorem geomWaits (delay K : Nat) :
    (List.range (K + 1)).map (fun i => delay * 2 ^ i)
      = delay :: (List.range K).map (fun i => delay * 2 * 2 ^ i) := by
  rw [List.range_succ_eq_map, List.map_cons, List.map_map]
  simp only [pow_zero, mul_one]
  refine congrArg (delay :: ·) (congrArg (List.map · (List.range K)) ?_)
  funext i
  simp only [Function.comp_apply, Nat.succ_eq_add_one, pow_succ]
  ring

/-- Helper: if the operation fails with a rate-limit error on the next `K`
attempts starting at `a` and succeeds on attempt `a + K`, with `K ≤ retries`,
the run returns the success, waits the geometric delays and makes `K + 1`
calls. -/
theorem retryRequest_succeeds_after {α : Type} (op : Nat → Except GenError α) (v : α) :
    ∀ (K retries delay a : Nat), K ≤ retries →
    (∀ i, i < K → ∃ e, op (a + i) = .error e ∧ is429 e = true) →
    op (a + K) = .ok v →
    retryRequest op retries delay a =
      ⟨.ok v, (List.range K).map (fun i => delay * 2 ^ i), K + 1⟩ := by
  intro K
  induction K with
  | zero =>
    intro retries delay a _ _ hsucc
    simp only [Nat.add_zero] at hsucc
    cases retries <;> simp [retryRequest, hsucc]
  | succ K ih =>
    intro retries delay a hK hfail hsucc
    obtain ⟨r, rfl⟩ : ∃ r, retries = r + 1 := by
      cases retries with
      | zero => omega
      | succ r => exact ⟨r, rfl⟩
    obtain ⟨e0, he0, he0429⟩ := hfail 0 (Nat.succ_pos K)
    simp only [Nat.add_zero] at he0
    have hrec := ih r (delay * 2) (a + 1) (by omega)
      (fun i hi => by
        obtain ⟨e, he, h429⟩ := hfail (i + 1) (by omega)
        exact ⟨e, by rwa [show a + 1 + i = a + (i + 1) by omega], h429⟩)
      (by rwa [show a + 1 + K = a + (K + 1) by omega])
    simp only [retryRequest, he0, he0429, if_true, hrec]
    rw [geomWaits]

/-- Claim C2: if the operation fails with a rate-limit-signalled error exactly
`K` times and then succeeds, with `K < retries` (the retry budget), then
`retryRequest` returns the success value, performs exactly `K` waits with
delays `delay * 2 ^ 0, …, delay * 2 ^ (K - 1)` (exponential backoff,
multiplier 2, no jitter), and invokes the operation `K + 1` times. -/
theorem retryRequest_backoff_on_rate_limit {α : Type}
    (op : Nat → Except GenError α) (v : α) (K retries delay : Nat)
    (hK : K < retries)
    (hfail : ∀ i, i < K → ∃ e, op i = .error e ∧ is429 e = true)
    (hsucc : op K = .ok v) :
    retryRequest op retries delay 0 =
      ⟨.ok v, (List.range K).map (fun i => delay * 2 ^ i), K + 1⟩ := by
  refine retryRequest_succeeds_after op v K retries delay 0 (Nat.le_of_lt hK)
    (fun i hi => by simpa using hfail i hi) (by simpa using hsucc)

/-- Witness for C2: an operation that rate-limits once (status 429) and then
succeeds is retried after a single 2000 ms wait and its success is returned. -/
theorem retryRequest_backoff_on_rate_limit_witness :
    retryRequest (fun i => if i == 0 then .error ⟨some 429, none, none⟩ else .ok 7)
        3 2000 0 =
      ⟨.ok 7, (List.range 1).map (fun i => 2000 * 2 ^ i), 2⟩ := by
  refine retryRequest_backoff_on_rate_limit
    (fun i => if i == 0 then .error ⟨some 429, none, none⟩ else .ok 7) 7 1 3 2000
    (by omega) ?_ (by rfl)
  intro i hi
  have : i = 0 := by omega
  subst this
  exact ⟨⟨some 429, none, none⟩, rfl, by decide⟩

/-- Helper: if every attempt from `a` on fails with a rate-limit error, the
whole budget is consumed and the error of attempt `a + retries` is surfaced. -/
theorem retryRequest_exhausts {α : Type} (op : Nat → Except GenError α)
    (errs : Nat → GenError)
    (hop : ∀ i, op i = .error (errs i)) (h429 : ∀ i, is429 (errs i) = true) :
    ∀ (retries delay a : Nat),
    retryRequest op retries delay a =
      ⟨.error (errs (a + retries)), (List.range retries).map (fun i => delay * 2 ^ i),
        retries + 1⟩ := by
  intro retries
  induction retries with
  | zero =>
    intro delay a
    simp [retryRequest, hop a]
  | succ r ih =>
    intro delay a
    have hrec := ih (delay * 2) (a + 1)
    simp only [retryRequest, hop a, h429 a, if_true, hrec]
    rw [geomWaits, show a + 1 + r = a + (r + 1) by omega]

/-- Claim C3: a first failure without a rate-limit signal is propagated
immediately and unchanged with zero waits; and an operation that always fails
with a rate-limit signal has its own (final) error propagated unchanged once
the budget of `retries` waits is exhausted — no wrapping, no swallowing. -/
theorem retryRequest_propagates_errors {α : Type} (retries delay : Nat) :
    (∀ (op : Nat → Except GenError α) (e : GenError),
      op 0 = .error e → is429 e = false →
      retryRequest op retries delay 0 = ⟨.error e, [], 1⟩) ∧
    (∀ (op : Nat → Except GenError α) (errs : Nat → GenError),
      (∀ i, op i = .error (errs i)) → (∀ i, is429 (errs i) = true) →
      retryRequest op retries delay 0 =
        ⟨.error (errs retries), (List.range retries).map (fun i => delay * 2 ^ i),
          retries + 1⟩) := by
  constructor
  · intro op e hop h429
    cases retries <;> simp [retryRequest, hop, h429]
  · intro op errs hop h429
    simpa using retryRequest_exhausts op errs hop h429 retries delay 0

/-- Witness for C3: a non-rate-limit error surfaces with no waits, and an
always-429 operation surfaces its final error after the full backoff run. -/
theorem retryRequest_propagates_errors_witness :
    retryRequest (fun _ => (.error ⟨some 500, none, none⟩ : Except GenError Nat))
        3 2000 0 = ⟨.error ⟨some 500, none, none⟩, [], 1⟩ ∧
    retryRequest (fun _ => (.error ⟨none, some 429, none⟩ : Except GenError Nat))
        3 2000 0 =
      ⟨.error ⟨none, some 429, none⟩,
        (List.range 3).map (fun i => 2000 * 2 ^ i), 3 + 1⟩ := by
  constructor
  · exact (retryRequest_propagates_errors 3 2000).1
      (fun _ => .error ⟨some 500, none, none⟩) ⟨some 500, none, none⟩ rfl (by decide)
  · exact (retryRequest_propagates_errors 3 2000).2
      (fun _ => .error ⟨none, some 429, none⟩) (fun _ => ⟨none, some 429, none⟩)
      (fun _ => rfl) (fun _ => rfl)

/-- JSON values, the result type of `JSON.parse`.  Numbers are modelled as
integers (the payload fields the orchestrator consumes are integral; fraction
and exponent forms are rejected by the simplified grammar below, which no
claim depends on). -/
inductive JsValue where
  | null
  | bool (b : Bool)
  | num (n : Int)
  | str (s : String)
  | arr (elems : List JsValue)
  | obj (fields : List (String × JsValue))

/-- JSON whitespace (tab, line feed, carriage return, space). -/
def isJsonWs (c : Char) : Bool :=
  c == '\t' || c == '\n' || c == '\r' || c == ' '

/-- Remove the leading run of JSON whitespace. -/
def wsDrop (input : List Char) : List Char := input.dropWhile isJsonWs

/-- Decoding table for the JSON string escapes this model supports (the
payloads at hand need no `\u` escapes). -/
def escapeTable : List (Char × Char) :=
  [('"', '"'), ('\\', '\\'), ('/', '/'), ('n', '\n'), ('t', '\t'), ('r', '\r')]

/-- The body of a JSON string after its opening quote: the decoded characters
together with the input following the closing quote. -/
def jsonStringRest : List Char → Option (List Char × List Char)
  | [] => none
  | '"' :: tail => some ([], tail)
  | '\\' :: [] => none
  | '\\' :: e :: tail =>
    match escapeTable.find? (fun entry => entry.1 == e) with
    | some entry => (jsonStringRest tail).map (fun q => (entry.2 :: q.1, q.2))
    | none => none
  | c :: tail => (jsonStringRest tail).map (fun q => (c :: q.1, q.2))

/-- A JSON number literal.  Integers only: a fraction or exponent marker
after the digits makes the document unparseable in this simplified grammar,
which no claim depends on. -/
def jsonNumberRest (input : List Char) : Option (JsValue × List Char) :=
  let neg : Bool :=
    match input with
    | c :: _ => c == '-'
    | [] => false
  let body := if neg then input.drop 1 else input
  let digits := body.takeWhile Char.isDigit
  let tail := body.dropWhile Char.isDigit
  let unsupported : Bool :=
    match tail with
    | c :: _ => c == '.' || c == 'e' || c == 'E'
    | [] => false
  if digits.isEmpty || unsupported then none
  else
    let mag : Nat := digits.foldl (fun sofar c => 10 * sofar + (c.toNat - 48)) 0
    some (.num (if neg then -(mag : Int) else (mag : Int)), tail)

/-- The `\x7b` character. -/
def lbrace : Char := Char.ofNat 123

/-- The `\x7d` character. -/
def rbrace : Char := Char.ofNat 125

mutual

/-- Fuel-indexed reading of one JSON value.  Models the behaviour of
`JSON.parse` on the payloads the orchestrator receives: `none` models a
thrown `SyntaxError`. -/
def jsonValue : Nat → List Char → Option (JsValue × List Char)
  | 0, _ => none
  | fuel + 1, input =>
    match wsDrop input with
    | [] => none
    | c :: tail =>
      if c == '"' then
        (jsonStringRest tail).map (fun q => (.str (String.mk q.1), q.2))
      else if c == lbrace then
        match wsDrop tail with
        | [] => none
        | c2 :: tail2 =>
          if c2 == rbrace then some (.obj [], tail2)
          else jsonObjRest fuel [] (c2 :: tail2)
      else if c == '[' then
        match wsDrop tail with
        | [] => none
        | c2 :: tail2 =>
          if c2 == ']' then some (.arr [], tail2)
          else jsonArrRest fuel [] (c2 :: tail2)
      else if leadsWith (c :: tail) "true".toList then
        some (.bool true, tail.drop 3)
      else if leadsWith (c :: tail) "false".toList then
        some (.bool false, tail.drop 4)
      else if leadsWith (c :: tail) "null".toList then
        some (.null, tail.drop 3)
      else if c == '-' || c.isDigit then jsonNumberRest (c :: tail)
      else none

/-- The members of a non-empty JSON object, accumulated in reverse order;
produces the finished object once the closing brace is reached. -/
def jsonObjRest :
    Nat → List (String × JsValue) → List Char → Option (JsValue × List Char)
  | 0, _, _ => none
  | fuel + 1, sofar, input =>
    match input with
    | [] => none
    | c :: tail =>
      if c == '"' then
        match jsonStringRest tail with
        | none => none
        | some (key, afterKey) =>
          match wsDrop afterKey with
          | [] => none
          | c2 :: afterColon =>
            if c2 == ':' then
              match jsonValue fuel afterColon with
              | none => none
              | some (v, afterVal) =>
                let grown := (String.mk key, v) :: sofar
                match wsDrop afterVal with
                | [] => none
                | c3 :: more =>
                  if c3 == ',' then jsonObjRest fuel grown (wsDrop more)
                  else if c3 == rbrace then some (.obj grown.reverse, more)
                  else none
            else none
      else none

/-- The elements of a non-empty JSON array, accumulated in reverse order;
produces the finished array once the closing bracket is reached. -/
def jsonArrRest : Nat → List JsValue → List Char → Option (JsValue × List Char)
  | 0, _, _ => none
  | fuel + 1, sofar, input =>
    match jsonValue fuel input with
    | none => none
    | some (v, afterVal) =>
      match wsDrop afterVal with
      | [] => none
      | c :: more =>
        if c == ',' then jsonArrRest fuel (v :: sofar) more
        else if c == ']' then some (.arr (v :: sofar).reverse, more)
        else none

end

/-- Model of `JSON.parse`: `none` models a thrown `SyntaxError`, `some v` the
parsed value.  The fuel bounds the recursion depth of the grammar and is
larger than any possible nesting of the input. -/
def jsonParse (s : String) : Option JsValue :=
  match jsonValue (s.length * 2 + 8) s.toList with
  | some (v, leftover) => if (wsDrop leftover).isEmpty then some v else none
  | none => none

/-- Look a key up in a parsed JSON object member list.  As with JavaScript
objects built by `JSON.parse`, a duplicated key keeps its last value. -/
def lookupField (fs : List (String × JsValue)) (k : String) : Option JsValue :=
  match fs with
  | [] => none
  | (k2, v) :: rest =>
    match lookupField rest k with
    | some v2 => some v2
    | none => if k2 == k then some v else none

/-- JavaScript property access `data.k` for the property names the
orchestrator reads: `none` models `undefined` (missing member, or access on a
non-object primitive).  Access on `null` throws and is handled separately at
its use site. -/
def jsMember : JsValue → String → Option JsValue
  | .obj fs, k => lookupField fs k
  | _, _ => none

/-- Modelled from the spec: the `ArticleCategory` enum is declared in
`types.ts`, which is not among the provided sources.  Its seven string values
are taken from the category list embedded in the random-article prompt
(source line 50) together with the spec's data model ("category (enum)") and
the fixed default `SOCIETY` used at source lines 76 and 94. -/
inductive ArticleCategory where
  | POLITICS
  | ECONOMY
  | SOCIETY
  | ENTERTAINMENT
  | IT_SCIENCE
  | SPORTS
  | OPINION
  deriving DecidableEq

/-- The string value carried by each `ArticleCategory` enum member. -/
def ArticleCategory.toValue : ArticleCategory → String
  | .POLITICS => "정치"
  | .ECONOMY => "경제"
  | .SOCIETY => "사회"
  | .ENTERTAINMENT => "연예"
  | .IT_SCIENCE => "IT/과학"
  | .SPORTS => "스포츠"
  | .OPINION => "오피니언"

/-- All enum members, in declaration order. -/
def allCategories : List ArticleCategory :=
  [.POLITICS, .ECONOMY, .SOCIETY, .ENTERTAINMENT, .IT_SCIENCE, .SPORTS, .OPINION]

/-- `Object.values(ArticleCategory)`: the known category string set. -/
def articleCategoryValues : List String := allCategories.map ArticleCategory.toValue

/-- The category validation of `generateRandomArticle` (source lines 75-80):
start from the default `SOCIETY`, and only replace it when `data.category` is
a string that is a member of the known category value set. -/
def coerceCategory (catStr : Option JsValue) : ArticleCategory :=
  match catStr with
  | some (.str s) =>
    match allCategories.find? (fun c => ArticleCategory.toValue c == s) with
    | some c => c
    | none => ArticleCategory.SOCIETY
  | _ => ArticleCategory.SOCIETY

/-- The mutable article state threaded through the orchestrator, with the
fields the service module reads (the `Article` declaration itself lives in
the out-of-scope `types.ts`; the field set is the one used by the service and
listed in the spec's data model).  `targetYear` and `previousArticleContext`
are optional strings. -/
structure Article where
  title : String
  content : String
  category : ArticleCategory
  author : String
  isEmergencyMode : Bool
  isCrazyMode : Bool
  isFakeNews : Bool
  isTimeMachineMode : Bool
  targetYear : Option String
  previousArticleContext : Option String

/-- JavaScript truthiness of a possibly-absent string: `undefined` and the
empty string are falsy. -/
def strTruthy : Option String → Bool
  | none => false
  | some s => !s.isEmpty

/-- A JavaScript number that is either `NaN` or an integer.  `parseInt`
produces `NaN` on inputs without leading digits; every `<`, `>`, `>=`
comparison against `NaN` is false. -/
inductive JsNum where
  | nan
  | int (n : Int)
  deriving DecidableEq

/-- Template-literal rendering of a `JsNum` (`NaN` prints as `"NaN"`). -/
def jsNumToString : JsNum → String
  | .nan => "NaN"
  | .int n => toString n

/-- JavaScript `<` against an integer bound (`NaN < m` is false). -/
def jsLt : JsNum → Int → Bool
  | .nan, _ => false
  | .int n, m => decide (n < m)

/-- JavaScript `>` against an integer bound (`NaN > m` is false). -/
def jsGt : JsNum → Int → Bool
  | .nan, _ => false
  | .int n, m => decide (m < n)

/-- JavaScript `>=` against an integer bound (`NaN >= m` is false). -/
def jsGe : JsNum → Int → Bool
  | .nan, _ => false
  | .int n, m => decide (m ≤ n)

/-- Model of JavaScript `parseInt` for the inputs at hand: skip leading
whitespace, accept an optional sign, then read leading decimal digits;
without leading digits the result is `NaN`. -/
def parseIntJs (s : String) : JsNum :=
  let cs := s.toList.dropWhile isJsonWs
  let signSplit : Bool × List Char :=
    match cs with
    | c :: rest =>
      if c == '-' then (true, rest)
      else if c == '+' then (false, rest)
      else (false, cs)
    | [] => (false, cs)
  let ds := signSplit.2.takeWhile Char.isDigit
  if ds.isEmpty then .nan
  else
    let n : Nat := ds.foldl (fun acc c => acc * 10 + (c.toNat - 48)) 0
    .int (if signSplit.1 then -(n : Int) else (n : Int))

/-- The target-year expression shared by `getEraContext` (line 22) and
`analyzeArticle` (line 103):
`article.isTimeMachineMode && article.targetYear ? parseInt(article.targetYear) : currentYear`. -/
def articleTargetYear (article : Article) (currentYear : Int) : JsNum :=
  if article.isTimeMachineMode && strTruthy article.targetYear then
    parseIntJs (article.targetYear.getD "")
  else .int currentYear

/-- Embedding of `getEraContext` (source lines 20-32), with the wall-clock
year passed explicitly as `currentYear`. -/
def getEraContext (article : Article) (currentYear : Int) : String :=
  let targetYear := articleTargetYear article currentYear
  if article.isTimeMachineMode then
    if jsLt targetYear 1990 then
      jsNumToString targetYear ++ "년도입니다. 인터넷이 없으므로 신문 투고, 라디오 사연, 대자보 등의 말투(하오체, 읍니다 등)를 사용하세요."
    else if jsLt targetYear 2000 then
      jsNumToString targetYear ++ "년도 PC통신 시대(하이텔, 천리안) 말투(~셈, ~임, 방가)를 사용하세요."
    else if jsLt targetYear 2010 then
      jsNumToString targetYear ++ "년도 싸이월드/초기 인터넷 감성(이모티콘, 펌킨족 등)을 반영하세요."
    else if jsGt targetYear (currentYear + 5) then
      jsNumToString targetYear ++ "년도 미래 시대입니다."
    else
      jsNumToString targetYear ++ "년도의 시대상을 반영하세요."
  else "현대(2024년)의 인터넷 댓글 말투를 사용하세요."

/-- The emergency-mode instruction of `generateRandomArticle` (line 40). -/
def randomEmergencyInstr : String :=
  "국가 비상사태, 전쟁, 재난 등 매우 위급한 상황에 대한 속보를 작성하세요."

/-- The crazy-mode instruction of `generateRandomArticle` (line 41). -/
def randomCrazyInstr : String :=
  "논리적으로 말이 안 되거나, 기자가 미쳐버린 듯한 기괴한 내용의 기사를 작성하세요."

/-- The fake-news instruction of `generateRandomArticle` (line 42). -/
def randomFakeNewsInstr : String :=
  "사실이 아닌 내용을 사실인 것처럼 교묘하게 꾸민 선동성 가짜 뉴스를 작성하세요."

/-- The default instruction of `generateRandomArticle` (line 39). -/
def randomDefaultInstr : String :=
  "일반적인 뉴스 기사를 랜덤한 주제로 작성하세요."

/-- The mode-instruction selection of `generateRandomArticle` (lines 39-42):
an `if`/`else if` chain, so the first set flag wins, in the order
emergency, crazy, fakeNews, with a default when none is set. -/
def randomModeInstruction (article : Article) : String :=
  if article.isEmergencyMode then randomEmergencyInstr
  else if article.isCrazyMode then randomCrazyInstr
  else if article.isFakeNews then randomFakeNewsInstr
  else randomDefaultInstr

/-- The part of the `generateRandomArticle` prompt template (lines 44-53)
before the mode instruction, including the interpolated era context. -/
def randomPromptLead (article : Article) (currentYear : Int) : String :=
  "\n    당신은 창의적인 기자입니다. 다음 조건에 맞춰 **랜덤한 뉴스 기사**를 하나 작성해주세요.\n    \n    1. **시대적 배경**: "
    ++ getEraContext article currentYear
    ++ "\n    2. **작성 톤앤매너**: "

/-- The part of the `generateRandomArticle` prompt template after the mode
instruction. -/
def randomPromptTail : String :=
  "\n    3. **필수 조건**: 기사의 **제목(Title)과 본문(Content)의 내용은 반드시 일치**해야 하며, 육하원칙에 따라 그럴듯하게 작성해야 합니다.\n    4. **카테고리**: 정치, 경제, 사회, 연예, IT/과학, 스포츠, 오피니언 중 하나를 랜덤하게 선택하세요.\n\n    결과는 반드시 다음 JSON 스키마를 따르세요.\n  "

/-- The full `generateRandomArticle` prompt (lines 44-53). -/
def randomArticlePrompt (article : Article) (currentYear : Int) : String :=
  randomPromptLead article currentYear ++ randomModeInstruction article ++ randomPromptTail

/-- The pre-1990 era block of `analyzeArticle` (lines 109-116). -/
def analyzeEraPre1990 (ty : JsNum) : String :=
  "\n        **[시대 설정: " ++ jsNumToString ty
    ++ "년]**\n        - **인터넷이 없거나 매우 제한적입니다.**\n        - 'SNS'나 '온라인 댓글' 대신 **'신문 독자 투고', '라디오 사연', '다방에서의 대화', '대자보'** 형식을 'comments' 배열에 담아주세요.\n        - 말투는 "
    ++ jsNumToString ty
    ++ "년도의 시대상을 반영한 고풍스럽거나 투박한 말투를 사용하세요. (예: \"~읍니다\", \"~하오\")\n        - 플랫폼(platform) 필드 예시: '조선일보 독자투고', '라디오 엽서', '서울 다방', '대학가 대자보'.\n        - **타 언론사 보도**: 당시 존재했던 신문사/방송사(동아일보, 경향신문, KBS, MBC 등)의 진지한 헤드라인 스타일.\n      "

/-- The 1990s era block of `analyzeArticle` (lines 118-124). -/
def analyzeEra90s (ty : JsNum) : String :=
  "\n        **[시대 설정: " ++ jsNumToString ty
    ++ "년]**\n        - **PC통신 시대입니다.** (하이텔, 천리안, 나우누리)\n        - 파란 화면의 채팅방 감성, \"~셈\", \"~임\", \"방가방가\" 등의 초기 통신 언어를 적극 반영하세요.\n        - 플랫폼(platform) 필드 예시: '하이텔 광장', '천리안 게시판', '나우누리 유머란', 'PC방'.\n        - **타 언론사 보도**: 90년대 신문/방송 스타일 + 스포츠신문(스포츠서울 등)의 자극적인 헤드라인.\n      "

/-- The 2000s era block of `analyzeArticle` (lines 126-133). -/
def analyzeEra2000s (ty : JsNum) : String :=
  "\n        **[시대 설정: " ++ jsNumToString ty
    ++ "년]**\n        - **싸이월드, 버디버디, 다음 카페 전성기입니다.**\n        - \"퍼가요~♡\", \"일촌평\", 오글거리는 감성 글, 2000년대 초반 이모티콘((-_-), OTL)을 사용하세요.\n        - 스마트폰은 아직 대중화되지 않았습니다.\n        - 플랫폼(platform) 필드 예시: '싸이월드 미니홈피', '다음 카페', '네이버 붐', '버디버디 상태메시지'.\n        - **타 언론사 보도**: 인터넷 뉴스 태동기. '딴지일보', '오마이뉴스' 등 대안 언론의 등장 반영.\n      "

/-- The future era block of `analyzeArticle` (lines 135-141). -/
def analyzeEraFuture (ty : JsNum) : String :=
  "\n        **[시대 설정: " ++ jsNumToString ty
    ++ "년 (미래)]**\n        - **미래 기술 시대입니다.**\n        - 홀로그램, 뉴럴 링크, 화성 거주민 등 미래적 요소를 반영하세요.\n        - 플랫폼(platform) 필드 예시: '뉴럴넷 링크', '화성 식민지 게시판', 'AI 통합 네트워크', '가상현실 로비'.\n        - **타 언론사 보도**: 'AI 뉴스 봇', '화성 일보', '갤럭시 네트워크 뉴스' 등 미래지향적 매체명.\n      "

/-- The in-between era block of `analyzeArticle` (lines 143-147). -/
def analyzeEraReflect (ty : JsNum) : String :=
  "\n        **[시대 설정: " ++ jsNumToString ty
    ++ "년]**\n        - 해당 연도의 실제 기술 수준과 유행하는 SNS 플랫폼을 반영하되, 아래의 분류 기준(SNS 통합, 커뮤니티 세분화)을 따르세요.\n        - **타 언론사 보도**: 현대의 다양한 매체(종편, 인터넷 신문, 유튜브 렉카 등)를 반영하세요.\n      "

/-- The present-day era block of `analyzeArticle` (lines 150-153). -/
def analyzeEraPresent : String :=
  "\n        **[시대 설정: 현재]**\n        - 타 언론사 보도 생성 시: 메이저 언론사, 인터넷 언론사, 경제지, 또는 유튜브 '사이버 렉카' 스타일의 자극적인 썸네일 제목 등을 다양하게 포함하세요.\n    "

/-- The era-context derivation of `analyzeArticle` (lines 102-154): the same
year bands as `getEraContext` but with the explicit `>= 1990 && < 2000` and
`>= 2000 && < 2010` guards of the source and richer directive blocks. -/
def analyzeEraContextFull (article : Article) (currentYear : Int) : String :=
  let targetYear := articleTargetYear article currentYear
  if article.isTimeMachineMode then
    if jsLt targetYear 1990 then analyzeEraPre1990 targetYear
    else if jsGe targetYear 1990 && jsLt targetYear 2000 then analyzeEra90s targetYear
    else if jsGe targetYear 2000 && jsLt targetYear 2010 then analyzeEra2000s targetYear
    else if jsGt targetYear (currentYear + 5) then analyzeEraFuture targetYear
    else analyzeEraReflect targetYear
  else analyzeEraPresent

/-- The emergency-mode directive block of `analyzeArticle` (lines 160-166). -/
def emergencyModeBlock : String :=
  "\n      **[모드: 국가 비상사태/언론 독점]**\n      - 국민들은 정보를 얻을 수 있는 유일한 창구인 이 기사에 필사적입니다.\n      - \"다른 뉴스는 다 끊겼어\", \"살려주세요\" 등의 절박한 반응이 주를 이룹니다.\n      - **타 언론사 보도**: 비어있거나 '신호 없음', '송출 중단' 등으로 표기.\n      - **금융 시장**: 대폭락, 거래 정지, 또는 화폐 가치 급락(환율 폭등)을 시뮬레이션하세요.\n    "

/-- The crazy-mode directive block of `analyzeArticle` (lines 170-174). -/
def crazyModeBlock : String :=
  "\n      **[모드: 미친 기자]**\n      - 대중은 기자를 '완전히 미친 사람', '정신 나간 사람'으로 취급합니다.\n      - **금융 시장**: 기이한 테마주(예: 알루미늄 호일, 정신병원 관련주)가 급등락하거나, 밈 코인(Meme Coin)이 폭등하는 등 비이성적 흐름.\n    "

/-- The fake-news directive block of `analyzeArticle` (lines 178-182). -/
def fakeNewsModeBlock : String :=
  "\n      **[모드: 가짜 뉴스/선동]**\n      - 팩트 여부와 관계없이 선동과 음모론 확산에 초점을 맞춥니다.\n      - **금융 시장**: 특정 작전주 띄우기나 공포 조성을 통한 투매 유도.\n    "

/-- The default directive block of `analyzeArticle` (lines 186-190). -/
def defaultModeBlock : String :=
  "\n      **[일반 모드]**\n      - 기사의 논조와 품질에 따른 현실적인 반응을 보여주세요.\n      - **금융 시장**: 기사 내용과 가장 연관성 높은 지표가 합리적으로 움직입니다.\n    "

/-- The mode-instruction accumulation of `analyzeArticle` (lines 157-191):
start from an empty array, push the block of every set flag in the order
emergency, crazy, fakeNews, and push the default block only when the array is
still empty afterwards. -/
def analyzeModeInstructions (article : Article) : List String :=
  let ms : List String := []
  let ms := if article.isEmergencyMode then ms ++ [emergencyModeBlock] else ms
  let ms := if article.isCrazyMode then ms ++ [crazyModeBlock] else ms
  let ms := if article.isFakeNews then ms ++ [fakeNewsModeBlock] else ms
  let ms := if ms.length == 0 then ms ++ [defaultModeBlock] else ms
  ms

/-- The previous-article continuity text of `analyzeArticle` (lines 193-196). -/
def previousContextText (article : Article) : String :=
  if strTruthy article.previousArticleContext then
    "\n    **[이전 기사 맥락 있음]**\n    이 기사는 후속 보도입니다: "
      ++ article.previousArticleContext.getD "" ++ "\n  "
  else ""

/-- The part of the `analyzeArticle` prompt template (lines 198-213) before
the joined mode instructions, including the interpolated era context,
continuity text and article fields. -/
def analyzePromptLead (article : Article) (currentYear : Int) : String :=
  "\n    당신은 '기자 시뮬레이터' 게임의 엔진입니다. \n    사용자가 작성한 기사 내용을 분석하여 대중의 반응과 경제적 파장을 시뮬레이션하세요.\n    \n    "
    ++ analyzeEraContextFull article currentYear
    ++ "\n    "
    ++ previousContextText article
    ++ "\n\n    기사 제목: " ++ article.title
    ++ "\n    카테고리: " ++ ArticleCategory.toValue article.category
    ++ "\n    내용: " ++ article.content
    ++ "\n    작성자: " ++ article.author
    ++ "\n\n    <활성화된 모드 지시사항>\n    "

/-- The fixed requirements text of the `analyzeArticle` prompt after the mode
instructions (lines 212-247): the closing tag, the comment-structure rules,
the financial/social indicator request and the profanity-masking rules. -/
def analyzePromptTail : String :=
  "\n    </활성화된 모드 지시사항>\n\n    요청 사항:\n    1. **댓글 (Comments) - 엄격한 구조 준수**:\n       - 다음 **10가지 플랫폼**을 대상으로 **총 20개 ~ 25개의 댓글**을 생성하세요.\n       - **각 플랫폼당 최소 2개**의 댓글을 기본적으로 생성하고, 남는 0~5개는 무작위로 분배하세요.\n       - **모든 댓글에는 반드시 1개의 대댓글(Reply)이 달려야 합니다.** (필수 조건)\n       \n       **[대상 플랫폼 목록]**:\n       1. **네이버 뉴스** (4050 세대, 진지함, 존댓말, 정치색 강함)\n       2. **유튜브** (어린 연령층, \"ㄹㅇㅋㅋ\", 영상 본 듯한 반응)\n       3. **인스타그램** (감성적, 해시태그 #, \"ㅠㅠ\", 이모지 남발)\n       4. **트위터(X)** (짧고 날카로움, 덕질 말투, 리트윗 유도)\n       5. **에펨코리아** (2030 남성, 반말, 축구/게임 비유, 거친 표현)\n       6. **더쿠** (2030 여성, 반말, \"~함\", 공감 유도, \"미친...\")\n       7. **블라인드** (직장인, 냉소적, 회사 인증 부심, \"형들...\")\n       8. **디시인사이드** (최대 커뮤니티, 극도로 거친 반말, 냉소적, 유동닉)\n       9. **네이트판** (여성 중심, 드라마틱한 사연 말투, \"베플\" 언급, 감정적 호소)\n       10. **카카오톡 오픈채팅** (실시간 반응, 짧은 단문 연타, \"#방장님\", 주식/코인방 느낌)\n       \n       *(만약 타임머신 모드라면, 위 10개 플랫폼을 해당 시대에 맞는 매체/장소로 대체하여 각각 2개 이상 생성하세요.)*\n\n       - **페르소나 다양화**: 극대노형, 팩트체크형, 드립형, 공포형, 음모론자, 주식무새, 무지성 옹호 등.\n       - 좋아요 수: 베스트 댓글(수천 개)과 무관심 댓글(0~10개)을 현실적으로 분포시키세요.\n\n    2. **금융 및 사회 지표**: \n       - 기사 내용에 따라 가장 관련성 높은 주식/코인/환율 지표를 변동시키세요.\n       - 사회적 불안도, 분노 지수 등을 측정하세요.\n    \n    3. **안전 및 필터링 가이드라인 (최우선 순위 - 엄격 적용)**: \n       - **욕설, 비속어, 저속한 표현은 예외 없이 글자 전체를 '***'로 마스킹 처리하세요.**\n       - **절대 한 글자도 남기지 마세요.** (예: \"병신\" -> \"***\", \"시발\" -> \"***\", \"개새끼\" -> \"***\")\n       - 앞글자 노출 금지, 초성 노출 금지. 무조건 전체를 *** 처리합니다.\n       - 문맥상 욕설이 필요하다면 그 위치에 *** 만 남겨두세요.\n       - 혐오 표현, 차별 발언은 생성하지 마세요.\n  "

/-- The full `analyzeArticle` prompt (lines 198-247), with the joined mode
instructions in the middle (`modeInstructions.join('\n')`). -/
def analyzePrompt (article : Article) (currentYear : Int) : String :=
  analyzePromptLead article currentYear
    ++ String.intercalate "\n" (analyzeModeInstructions article)
    ++ analyzePromptTail

/-- The shape of the provider's response as read by the orchestrator:
`text` is the textual payload, possibly absent. -/
structure GenerateContentResponse where
  text : Option String

/-- The object returned by `generateRandomArticle`: exactly the three keys
`title`, `content`, `category` (source lines 82-86 and 91-95).  `title` and
`content` hold whatever JSON value the payload held for those keys (`none`
models `undefined`); `category` is an enum member. -/
structure RandomArticleResult where
  title : Option JsValue
  content : Option JsValue
  category : ArticleCategory

/-- The fixed fallback of `generateRandomArticle` (lines 91-95). -/
def randomArticleFallback : RandomArticleResult :=
  ⟨some (.str "기사 생성 실패"), some (.str "AI 연결 상태를 확인해주세요."),
    ArticleCategory.SOCIETY⟩

/-- Embedding of `generateRandomArticle` (source lines 34-97).  The result
triple is the returned `{title, content, category}` object: `title` and
`content` are whatever JSON values (or absences) the payload held, and
`category` is the coerced enum member.  Every failure of the wrapped request
(transport error surfacing from `retryRequest`, falsy `response.text`,
unparseable payload, or a `null` payload whose property access throws) lands
in the `catch` and yields the fixed fallback. -/
def generateRandomArticle (article : Article) (currentYear : Int)
    (op : Nat → Except GenError GenerateContentResponse) : RandomArticleResult :=
  let _prompt := randomArticlePrompt article currentYear
  match (retryRequest op 3 2000 0).result with
  | .error _ => randomArticleFallback
  | .ok response =>
    match response.text with
    | none => randomArticleFallback
    | some t =>
      if t.isEmpty then randomArticleFallback
      else
        match jsonParse t with
        | none => randomArticleFallback
        | some .null => randomArticleFallback
        | some data =>
          { title := jsMember data "title"
            content := jsMember data "content"
            category := coerceCategory (jsMember data "category") }

/-- The fixed fallback object of `analyzeArticle` (lines 364-375): zero
scores, fixed Korean error strings, empty `comments` and `otherMediaCoverage`
collections, and no `stockAnalysis` or `extraIndices` members. -/
def analyzeFallback : JsValue :=
  .obj [("viralityScore", .num 0), ("reliabilityScore", .num 0),
    ("controversyScore", .num 0), ("publicSentiment", .str "Error"),
    ("editorFeedback", .str "시스템 오류: AI 응답 지연. 잠시 후 다시 시도해주세요."),
    ("impactSummary", .str "데이터 전송 실패."), ("viewCountEstimate", .num 0),
    ("shareCount", .num 0), ("comments", .arr []), ("otherMediaCoverage", .arr [])]

/-- Embedding of `analyzeArticle` (source lines 99-377).  On a truthy payload
the parsed JSON value is returned verbatim (`JSON.parse(response.text) as
SimulationResult` is a compile-time cast with no runtime validation); every
failure path lands in the `catch` and yields the fixed fallback object. -/
def analyzeArticle (article : Article) (currentYear : Int)
    (op : Nat → Except GenError GenerateContentResponse) : JsValue :=
  let _prompt := analyzePrompt article currentYear
  match (retryRequest op 3 2000 0).result with
  | .error _ => analyzeFallback
  | .ok response =>
    match response.text with
    | none => analyzeFallback
    | some t =>
      if t.isEmpty then analyzeFallback
      else
        match jsonParse t with
        | none => analyzeFallback
        | some data => data

/-- Embedding of `generateReplyReaction` (source lines 379-445).  The prompt
construction (lines 387-414) only shapes the request text, which the outcome
model abstracts into `op`; the era context it embeds is kept here to mirror
line 385.  A falsy payload returns the empty array without throwing, a parse
failure or transport failure lands in the `catch`, and all of them yield the
empty array. -/
def generateReplyReaction (article : Article) (currentYear : Int)
    (op : Nat → Except GenError GenerateContentResponse) : JsValue :=
  let _eraContext := getEraContext article currentYear
  match (retryRequest op 3 2000 0).result with
  | .error _ => .arr []
  | .ok response =>
    match response.text with
    | none => .arr []
    | some t =>
      if t.isEmpty then .arr []
      else
        match jsonParse t with
        | none => .arr []
        | some data => data

/-- Claim C9: `retryRequest` always terminates (it is a total function in this
embedding), and for every behaviour of the wrapped operation it invokes the
operation at most `retries + 1` times: the recursion depth is bounded by the
retry budget. -/
theorem retryRequest_call_bound {α : Type} (op : Nat → Except GenError α) :
    ∀ (retries delay attempt : Nat),
    (retryRequest op retries delay attempt).calls ≤ retries + 1 := by
  intro retries
  induction retries with
  | zero =>
    intro delay attempt
    unfold retryRequest
    cases op attempt <;> simp
  | succ r ih =>
    intro delay attempt
    unfold retryRequest
    cases op attempt with
    | ok v => simp
    | error e =>
      by_cases h : is429 e = true
      · simpa [h] using Nat.succ_le_succ (ih (delay * 2) (attempt + 1))
      · simp [eq_false_of_ne_true h]

/-- A baseline article snapshot used to instantiate theorems on concrete
inputs: no mode flags, no time machine, no continuity context. -/
def articleBase : Article :=
  { title := "속보", content := "본문", category := ArticleCategory.SOCIETY,
    author := "기자", isEmergencyMode := false, isCrazyMode := false,
    isFakeNews := false, isTimeMachineMode := false, targetYear := none,
    previousArticleContext := none }

/-- When time-machine mode is on and `targetYear` is a truthy string `s`,
`getEraContext` is the band chain evaluated at `parseIntJs s`. -/
theorem getEraContext_parsed (article : Article) (currentYear : Int) (s : String)
    (htm : article.isTimeMachineMode = true)
    (hty : article.targetYear = some s)
    (htr : strTruthy (some s) = true) :
    getEraContext article currentYear =
      (if jsLt (parseIntJs s) 1990 then
        jsNumToString (parseIntJs s) ++ "년도입니다. 인터넷이 없으므로 신문 투고, 라디오 사연, 대자보 등의 말투(하오체, 읍니다 등)를 사용하세요."
      else if jsLt (parseIntJs s) 2000 then
        jsNumToString (parseIntJs s) ++ "년도 PC통신 시대(하이텔, 천리안) 말투(~셈, ~임, 방가)를 사용하세요."
      else if jsLt (parseIntJs s) 2010 then
        jsNumToString (parseIntJs s) ++ "년도 싸이월드/초기 인터넷 감성(이모티콘, 펌킨족 등)을 반영하세요."
      else if jsGt (parseIntJs s) (currentYear + 5) then
        jsNumToString (parseIntJs s) ++ "년도 미래 시대입니다."
      else
        jsNumToString (parseIntJs s) ++ "년도의 시대상을 반영하세요.") := by
  simp only [getEraContext, articleTargetYear, htm, hty, htr, Bool.true_and,
    if_true, Option.getD_some]

/-- A time-machine article whose `targetYear` is a given string. -/
def timeMachineArticle (ty : Option String) : Article :=
  { articleBase with isTimeMachineMode := true, targetYear := ty }

/-- Counterexample for C4: with time-machine mode on and an unparseable
`targetYear`, the resolver does not fall back to the current calendar year:
`parseInt` yields `NaN`, every band comparison is false, and the reflect-era
directive is returned with `NaN` interpolated instead of the year 2026. -/
theorem getEraContext_nan_counterexample :
    getEraContext (timeMachineArticle (some "내년")) 2026
      = "NaN년도의 시대상을 반영하세요." ∧
    getEraContext (timeMachineArticle (some "내년")) 2026
      ≠ "2026년도의 시대상을 반영하세요." := by
  constructor
  · rfl
  · decide

/-- Claim C4 (amended): the era-context resolver selects the first matching
band by strict `<` comparisons in order (1989 → pre-1990 directive, 1990 and
1999 → 1990s directive, 2000 → 2000s directive, `currentYear + 6` → future
directive, `currentYear + 4` → reflect-era directive), returns the fixed
contemporary directive when time-machine mode is off, and falls back to the
current calendar year when `targetYear` is absent; however, when `targetYear`
is present but unparseable the parsed value is `NaN`, every band comparison
fails, and the reflect-era directive is returned with `NaN` interpolated
(there is no fallback to the current year in that case). -/
theorem getEraContext_band_selection (article : Article) (currentYear : Int)
    (hcy : 2010 ≤ currentYear) :
    (article.isTimeMachineMode = false →
      getEraContext article currentYear = "현대(2024년)의 인터넷 댓글 말투를 사용하세요.") ∧
    (article.isTimeMachineMode = true → article.targetYear = some "1989" →
      getEraContext article currentYear
        = "1989년도입니다. 인터넷이 없으므로 신문 투고, 라디오 사연, 대자보 등의 말투(하오체, 읍니다 등)를 사용하세요.") ∧
    (article.isTimeMachineMode = true → article.targetYear = some "1990" →
      getEraContext article currentYear
        = "1990년도 PC통신 시대(하이텔, 천리안) 말투(~셈, ~임, 방가)를 사용하세요.") ∧
    (article.isTimeMachineMode = true → article.targetYear = some "1999" →
      getEraContext article currentYear
        = "1999년도 PC통신 시대(하이텔, 천리안) 말투(~셈, ~임, 방가)를 사용하세요.") ∧
    (article.isTimeMachineMode = true → article.targetYear = some "2000" →
      getEraContext article currentYear
        = "2000년도 싸이월드/초기 인터넷 감성(이모티콘, 펌킨족 등)을 반영하세요.") ∧
    (∀ s, article.isTimeMachineMode = true → article.targetYear = some s →
      strTruthy (some s) = true → parseIntJs s = .int (currentYear + 6) →
      getEraContext article currentYear
        = toString (currentYear + 6) ++ "년도 미래 시대입니다.") ∧
    (∀ s, article.isTimeMachineMode = true → article.targetYear = some s →
      strTruthy (some s) = true → parseIntJs s = .int (currentYear + 4) →
      getEraContext article currentYear
        = toString (currentYear + 4) ++ "년도의 시대상을 반영하세요.") ∧
    (article.isTimeMachineMode = true → article.targetYear = none →
      getEraContext article currentYear
        = toString currentYear ++ "년도의 시대상을 반영하세요.") ∧
    (∀ s, article.isTimeMachineMode = true → article.targetYear = some s →
      strTruthy (some s) = true → parseIntJs s = .nan →
      getEraContext article currentYear = "NaN년도의 시대상을 반영하세요.") := by
  refine ⟨?_, ?_, ?_, ?_, ?_, ?_, ?_, ?_, ?_⟩
  · intro htm
    simp [getEraContext, htm]
  · intro htm hty
    rw [getEraContext_parsed article currentYear "1989" htm hty (by decide)]
    rw [if_pos (by decide)]
    decide
  · intro htm hty
    rw [getEraContext_parsed article currentYear "1990" htm hty (by decide)]
    rw [if_neg (by decide), if_pos (by decide)]
    decide
  · intro htm hty
    rw [getEraContext_parsed article currentYear "1999" htm hty (by decide)]
    rw [if_neg (by decide), if_pos (by decide)]
    decide
  · intro htm hty
    rw [getEraContext_parsed article currentYear "2000" htm hty (by decide)]
    rw [if_neg (by decide), if_neg (by decide), if_pos (by decide)]
    decide
  · intro s htm hty htr hp
    rw [getEraContext_parsed article currentYear s htm hty htr, hp]
    have h1 : jsLt (JsNum.int (currentYear + 6)) 1990 = false := by
      simp only [jsLt, decide_eq_false_iff_not]; omega
    have h2 : jsLt (JsNum.int (currentYear + 6)) 2000 = false := by
      simp only [jsLt, decide_eq_false_iff_not]; omega
    have h3 : jsLt (JsNum.int (currentYear + 6)) 2010 = false := by
      simp only [jsLt, decide_eq_false_iff_not]; omega
    have h4 : jsGt (JsNum.int (currentYear + 6)) (currentYear + 5) = true := by
      simp only [jsGt, decide_eq_true_eq]; omega
    simp [h1, h2, h3, h4, jsNumToString]
  · intro s htm hty htr hp
    rw [getEraContext_parsed article currentYear s htm hty htr, hp]
    have h1 : jsLt (JsNum.int (currentYear + 4)) 1990 = false := by
      simp only [jsLt, decide_eq_false_iff_not]; omega
    have h2 : jsLt (JsNum.int (currentYear + 4)) 2000 = false := by
      simp only [jsLt, decide_eq_false_iff_not]; omega
    have h3 : jsLt (JsNum.int (currentYear + 4)) 2010 = false := by
      simp only [jsLt, decide_eq_false_iff_not]; omega
    have h4 : jsGt (JsNum.int (currentYear + 4)) (currentYear + 5) = false := by
      simp only [jsGt, decide_eq_false_iff_not]; omega
    simp [h1, h2, h3, h4, jsNumToString]
  · intro htm hty
    have h1 : jsLt (JsNum.int currentYear) 1990 = false := by
      simp only [jsLt, decide_eq_false_iff_not]; omega
    have h2 : jsLt (JsNum.int currentYear) 2000 = false := by
      simp only [jsLt, decide_eq_false_iff_not]; omega
    have h3 : jsLt (JsNum.int currentYear) 2010 = false := by
      simp only [jsLt, decide_eq_false_iff_not]; omega
    have h4 : jsGt (JsNum.int currentYear) (currentYear + 5) = false := by
      simp only [jsGt, decide_eq_false_iff_not]; omega
    simp [getEraContext, articleTargetYear, htm, hty, strTruthy, h1, h2, h3, h4,
      jsNumToString]
  · intro s htm hty htr hp
    rw [getEraContext_parsed article currentYear s htm hty htr, hp]
    rw [if_neg (by decide), if_neg (by decide), if_neg (by decide),
      if_neg (show ¬jsGt JsNum.nan (currentYear + 5) = true by simp [jsGt])]
    decide

/-- Witness for C4 (amended): at `currentYear = 2026`, the year 1989 selects
the pre-1990 directive and an absent `targetYear` falls back to 2026. -/
theorem getEraContext_band_selection_witness :
    getEraContext (timeMachineArticle (some "1989")) 2026
      = "1989년도입니다. 인터넷이 없으므로 신문 투고, 라디오 사연, 대자보 등의 말투(하오체, 읍니다 등)를 사용하세요." ∧
    getEraContext (timeMachineArticle none) 2026
      = toString (2026 : Int) ++ "년도의 시대상을 반영하세요." := by
  constructor
  · exact (getEraContext_band_selection (timeMachineArticle (some "1989"))
      2026 (by decide)).2.1 rfl rfl
  · exact (getEraContext_band_selection (timeMachineArticle none) 2026
      (by decide)).2.2.2.2.2.2.2.1 rfl rfl

/-- Claim C6: for every combination of the flags, `analyzeArticle` builds its
mode-instruction list by concatenating the directive blocks of all set flags,
in the order emergency, crazy, fakeNews (non-exclusive accumulation), and
appends the default block exactly when none of the three flags is set; the
prompt embeds the blocks joined with a newline between its lead and tail. -/
theorem analyzeArticle_mode_accumulation (article : Article) (currentYear : Int) :
    analyzeModeInstructions article =
      (if article.isEmergencyMode then [emergencyModeBlock] else []) ++
      (if article.isCrazyMode then [crazyModeBlock] else []) ++
      (if article.isFakeNews then [fakeNewsModeBlock] else []) ++
      (if article.isEmergencyMode || article.isCrazyMode || article.isFakeNews
        then [] else [defaultModeBlock]) ∧
    ∃ p s, analyzePrompt article currentYear =
      p ++ String.intercalate "\n" (analyzeModeInstructions article) ++ s := by
  constructor
  · cases he : article.isEmergencyMode <;> cases hc : article.isCrazyMode <;>
      cases hf : article.isFakeNews <;>
      simp [analyzeModeInstructions, he, hc, hf]
  · exact ⟨analyzePromptLead article currentYear, analyzePromptTail, rfl⟩

/-- Claim C7: the `generateRandomArticle` prompt contains exactly one mode
instruction, chosen first-true-wins in the priority order
emergency > crazy > fakeNews > default; in particular, with the emergency
flag set the instruction is the emergency one regardless of the other flags.
The four instructions are pairwise distinct, and the prompt embeds the chosen
instruction between its lead and tail. -/
theorem generateRandomArticle_mode_priority (article : Article) (currentYear : Int) :
    (article.isEmergencyMode = true →
      randomModeInstruction article = randomEmergencyInstr) ∧
    (article.isEmergencyMode = false → article.isCrazyMode = true →
      randomModeInstruction article = randomCrazyInstr) ∧
    (article.isEmergencyMode = false → article.isCrazyMode = false →
      article.isFakeNews = true →
      randomModeInstruction article = randomFakeNewsInstr) ∧
    (article.isEmergencyMode = false → article.isCrazyMode = false →
      article.isFakeNews = false →
      randomModeInstruction article = randomDefaultInstr) ∧
    List.Pairwise (· ≠ ·)
      [randomEmergencyInstr, randomCrazyInstr, randomFakeNewsInstr,
        randomDefaultInstr] ∧
    ∃ p s, randomArticlePrompt article currentYear =
      p ++ randomModeInstruction article ++ s := by
  refine ⟨?_, ?_, ?_, ?_, by decide,
    ⟨randomPromptLead article currentYear, randomPromptTail, rfl⟩⟩
  · intro he
    simp [randomModeInstruction, he]
  · intro he hc
    simp [randomModeInstruction, he, hc]
  · intro he hc hf
    simp [randomModeInstruction, he, hc, hf]
  · intro he hc hf
    simp [randomModeInstruction, he, hc, hf]

/-- Witness for C7: with all three flags set, the chosen instruction is the
emergency one, which differs from the crazy one. -/
theorem generateRandomArticle_mode_priority_witness :
    randomModeInstruction { articleBase with isEmergencyMode := true, isCrazyMode := true, isFakeNews := true } = randomEmergencyInstr ∧
    randomEmergencyInstr ≠ randomCrazyInstr := by
  refine ⟨(generateRandomArticle_mode_priority
    { articleBase with isEmergencyMode := true, isCrazyMode := true, isFakeNews := true } 2026).1 rfl, ?_⟩
  have h := (generateRandomArticle_mode_priority articleBase 2026).2.2.2.2.1
  exact List.rel_of_pairwise_cons h (List.mem_cons_self _ _)

/-- Helper: on a successful request whose truthy payload parses to a JSON
object, `generateRandomArticle` returns exactly the three-key object built
from the parsed fields. -/
theorem generateRandomArticle_parsed_obj (article : Article) (currentYear : Int)
    (op : Nat → Except GenError GenerateContentResponse) (t : String)
    (fs : List (String × JsValue))
    (hok : (retryRequest op 3 2000 0).result = .ok ⟨some t⟩)
    (hne : t.isEmpty = false)
    (hparse : jsonParse t = some (.obj fs)) :
    generateRandomArticle article currentYear op =
      ⟨lookupField fs "title", lookupField fs "content",
        coerceCategory (lookupField fs "category")⟩ := by
  simp only [generateRandomArticle, hok, hne, hparse, jsMember,
    Bool.false_eq_true, if_false]

/-- Helper: on a successful request whose truthy payload parses,
`analyzeArticle` returns the parsed JSON value verbatim. -/
theorem analyzeArticle_parsed (article : Article) (currentYear : Int)
    (op : Nat → Except GenError GenerateContentResponse) (t : String)
    (v : JsValue)
    (hok : (retryRequest op 3 2000 0).result = .ok ⟨some t⟩)
    (hne : t.isEmpty = false)
    (hparse : jsonParse t = some v) :
    analyzeArticle article currentYear op = v := by
  simp only [analyzeArticle, hok, hne, hparse, Bool.false_eq_true, if_false]

/-- Claim C1: under every failure behaviour of the generation capability —
a transport error surfacing from the retry wrapper, an empty or absent
textual payload, or an unparseable payload — each of the three entry points
returns normally (they are total functions in this embedding) with its fixed
operation-specific fallback: `generateRandomArticle` the fixed failure
title/content with category `SOCIETY`, `analyzeArticle` the fixed object with
zero scores, fixed Korean error strings, empty `comments` and
`otherMediaCoverage`, and no `stockAnalysis`/`extraIndices` members, and
`generateReplyReaction` the empty array. -/
theorem orchestrators_fallback_on_failure (article : Article) (currentYear : Int)
    (op : Nat → Except GenError GenerateContentResponse) :
    (∀ e, (retryRequest op 3 2000 0).result = .error e →
      generateRandomArticle article currentYear op = randomArticleFallback ∧
      analyzeArticle article currentYear op = analyzeFallback ∧
      generateReplyReaction article currentYear op = .arr []) ∧
    (∀ r, (retryRequest op 3 2000 0).result = .ok r → strTruthy r.text = false →
      generateRandomArticle article currentYear op = randomArticleFallback ∧
      analyzeArticle article currentYear op = analyzeFallback ∧
      generateReplyReaction article currentYear op = .arr []) ∧
    (∀ r t, (retryRequest op 3 2000 0).result = .ok r → r.text = some t →
      t.isEmpty = false → jsonParse t = none →
      generateRandomArticle article currentYear op = randomArticleFallback ∧
      analyzeArticle article currentYear op = analyzeFallback ∧
      generateReplyReaction article currentYear op = .arr []) ∧
    randomArticleFallback.title = some (.str "기사 생성 실패") ∧
    randomArticleFallback.content = some (.str "AI 연결 상태를 확인해주세요.") ∧
    randomArticleFallback.category = ArticleCategory.SOCIETY ∧
    jsMember analyzeFallback "viralityScore" = some (.num 0) ∧
    jsMember analyzeFallback "reliabilityScore" = some (.num 0) ∧
    jsMember analyzeFallback "controversyScore" = some (.num 0) ∧
    jsMember analyzeFallback "viewCountEstimate" = some (.num 0) ∧
    jsMember analyzeFallback "shareCount" = some (.num 0) ∧
    jsMember analyzeFallback "editorFeedback"
      = some (.str "시스템 오류: AI 응답 지연. 잠시 후 다시 시도해주세요.") ∧
    jsMember analyzeFallback "impactSummary" = some (.str "데이터 전송 실패.") ∧
    jsMember analyzeFallback "comments" = some (.arr []) ∧
    jsMember analyzeFallback "otherMediaCoverage" = some (.arr []) ∧
    jsMember analyzeFallback "stockAnalysis" = none ∧
    jsMember analyzeFallback "extraIndices" = none := by
  refine ⟨?_, ?_, ?_, rfl, rfl, rfl, rfl, rfl, rfl, rfl, rfl, rfl, rfl, rfl,
    rfl, rfl, rfl⟩
  · intro e h
    refine ⟨?_, ?_, ?_⟩ <;>
      simp only [generateRandomArticle, analyzeArticle, generateReplyReaction, h]
  · intro r h htr
    obtain ⟨text⟩ := r
    cases text with
    | none =>
      refine ⟨?_, ?_, ?_⟩ <;>
        simp only [generateRandomArticle, analyzeArticle, generateReplyReaction, h]
    | some t =>
      have hemp : t.isEmpty = true := by
        simpa [strTruthy] using htr
      refine ⟨?_, ?_, ?_⟩ <;>
        simp only [generateRandomArticle, analyzeArticle, generateReplyReaction,
          h, hemp, if_true]
  · intro r t h hts hne hparse
    obtain ⟨text⟩ := r
    subst hts
    refine ⟨?_, ?_, ?_⟩ <;>
      simp only [generateRandomArticle, analyzeArticle, generateReplyReaction,
        h, hne, hparse, Bool.false_eq_true, if_false]

/-- Operation behaviour: every attempt throws a non-rate-limit transport
error. -/
def opTransportError : Nat → Except GenError GenerateContentResponse :=
  fun _ => .error ⟨some 500, none, some "Internal error"⟩

/-- Operation behaviour: the request succeeds but carries no text. -/
def opNoText : Nat → Except GenError GenerateContentResponse :=
  fun _ => .ok ⟨none⟩

/-- Operation behaviour: the request succeeds with an unparseable payload. -/
def opBadJson : Nat → Except GenError GenerateContentResponse :=
  fun _ => .ok ⟨some "응답 없음"⟩

/-- Witness for C1: each entry point maps a concrete failure behaviour of
each kind to its fixed fallback. -/
theorem orchestrators_fallback_on_failure_witness :
    generateRandomArticle articleBase 2026 opTransportError = randomArticleFallback ∧
    analyzeArticle articleBase 2026 opNoText = analyzeFallback ∧
    generateReplyReaction articleBase 2026 opBadJson = .arr [] := by
  refine ⟨?_, ?_, ?_⟩
  · exact ((orchestrators_fallback_on_failure articleBase 2026 opTransportError).1
      ⟨some 500, none, some "Internal error"⟩ rfl).1
  · exact ((orchestrators_fallback_on_failure articleBase 2026 opNoText).2.1
      ⟨none⟩ rfl rfl).2.1
  · exact ((orchestrators_fallback_on_failure articleBase 2026 opBadJson).2.2.1
      ⟨some "응답 없음"⟩ "응답 없음" rfl rfl rfl rfl).2.2

/-- Operation behaviour: the request succeeds with a payload that parses to
an empty JSON object, missing every required field of the declared schema. -/
def opEmptyObj : Nat → Except GenError GenerateContentResponse :=
  fun _ => .ok ⟨some "\x7b\x7d"⟩

/-- Counterexample for C5: a payload that parses but is missing every
required field is NOT treated as malformed.  `generateRandomArticle` returns
a partially-trusted result (absent title and content, defaulted category)
that differs from its fallback, and `analyzeArticle` returns the parsed empty
object verbatim, which differs from its fallback. -/
theorem malformed_payload_counterexample :
    generateRandomArticle articleBase 2026 opEmptyObj
      = ⟨none, none, ArticleCategory.SOCIETY⟩ ∧
    generateRandomArticle articleBase 2026 opEmptyObj ≠ randomArticleFallback ∧
    analyzeArticle articleBase 2026 opEmptyObj = .obj [] ∧
    analyzeArticle articleBase 2026 opEmptyObj ≠ analyzeFallback := by
  refine ⟨rfl, ?_, rfl, ?_⟩
  · intro h
    exact Option.noConfusion (congrArg RandomArticleResult.title h)
  · intro h
    have h1 := congrArg
      (fun v => match v with | JsValue.obj fields => fields.length | _ => 0) h
    exact absurd h1 (by decide)

/-- Claim C5 (amended): the parsing step fails open, not closed.  A payload
whose text parses as a JSON object but is missing required fields of the
declared schema is still partially trusted: `generateRandomArticle` copies
the (possibly absent) `title` and `content` members through and defaults only
the category, and `analyzeArticle` returns the parsed object verbatim; the
fallback is triggered only by payloads whose text does not parse (or, in the
random-article flow, parses to `null`). -/
theorem parse_fails_open (article : Article) (currentYear : Int)
    (op : Nat → Except GenError GenerateContentResponse) (t : String)
    (fs : List (String × JsValue))
    (hok : (retryRequest op 3 2000 0).result = .ok ⟨some t⟩)
    (hne : t.isEmpty = false)
    (hparse : jsonParse t = some (.obj fs)) :
    generateRandomArticle article currentYear op =
      ⟨lookupField fs "title", lookupField fs "content",
        coerceCategory (lookupField fs "category")⟩ ∧
    analyzeArticle article currentYear op = .obj fs ∧
    (∀ t2, jsonParse t2 = none →
      ∀ op2 : Nat → Except GenError GenerateContentResponse,
      (retryRequest op2 3 2000 0).result = .ok ⟨some t2⟩ → t2.isEmpty = false →
      generateRandomArticle article currentYear op2 = randomArticleFallback) := by
  refine ⟨generateRandomArticle_parsed_obj article currentYear op t fs hok hne hparse,
    analyzeArticle_parsed article currentYear op t (.obj fs) hok hne hparse, ?_⟩
  intro t2 hparse2 op2 hok2 hne2
  simp only [generateRandomArticle, hok2, hne2, hparse2, Bool.false_eq_true,
    if_false]

/-- Witness for C5 (amended): on the concrete empty-object payload the two
flows return the fail-open results. -/
theorem parse_fails_open_witness :
    generateRandomArticle articleBase 2026 opEmptyObj
      = ⟨none, none, ArticleCategory.SOCIETY⟩ ∧
    analyzeArticle articleBase 2026 opEmptyObj = .obj [] := by
  have h := parse_fails_open articleBase 2026 opEmptyObj "\x7b\x7d" []
    rfl rfl rfl
  exact ⟨h.1, h.2.1⟩

/-- Claim C8: the category validation of the random-article flow.  A category
string outside the known value set is replaced by the fixed default `SOCIETY`
(and no error is raised — `coerceCategory` is total); a valid category string
is passed through unchanged; and the flow applies exactly this coercion to
the payload's `category` member. -/
theorem coerceCategory_contract (s : String) :
    (s ∉ articleCategoryValues →
      coerceCategory (some (.str s)) = ArticleCategory.SOCIETY) ∧
    (s ∈ articleCategoryValues →
      ArticleCategory.toValue (coerceCategory (some (.str s))) = s) ∧
    (∀ (article : Article) (currentYear : Int)
      (op : Nat → Except GenError GenerateContentResponse) (t : String)
      (fs : List (String × JsValue)),
      (retryRequest op 3 2000 0).result = .ok ⟨some t⟩ → t.isEmpty = false →
      jsonParse t = some (.obj fs) → lookupField fs "category" = some (.str s) →
      (generateRandomArticle article currentYear op).category =
        coerceCategory (some (.str s))) := by
  refine ⟨?_, ?_, ?_⟩
  · intro hs
    cases hf : allCategories.find? (fun c => ArticleCategory.toValue c == s) with
    | none => simp [coerceCategory, hf]
    | some c =>
      exfalso
      refine hs ?_
      have hmem := List.mem_of_find?_eq_some hf
      have hval : ArticleCategory.toValue c = s :=
        by simpa using List.find?_some hf
      exact hval ▸ List.mem_map_of_mem ArticleCategory.toValue hmem
  · intro hs
    obtain ⟨c, hc, hcv⟩ := List.mem_map.mp hs
    cases hf : allCategories.find? (fun c => ArticleCategory.toValue c == s) with
    | none =>
      exact absurd (by simpa using hcv)
        (by simpa using List.find?_eq_none.mp hf c hc)
    | some c2 =>
      have hval : ArticleCategory.toValue c2 = s :=
        by simpa using List.find?_some hf
      simp [coerceCategory, hf, hval]
  · intro article currentYear op t fs hok hne hparse hcat
    rw [generateRandomArticle_parsed_obj article currentYear op t fs hok hne
      hparse, hcat]

/-- Witness for C8: the unknown string `"없는분류"` is coerced to `SOCIETY`,
and the valid string `"정치"` is passed through unchanged. -/
theorem coerceCategory_contract_witness :
    coerceCategory (some (.str "없는분류")) = ArticleCategory.SOCIETY ∧
    ArticleCategory.toValue (coerceCategory (some (.str "정치"))) = "정치" := by
  exact ⟨(coerceCategory_contract "없는분류").1 (by decide),
    (coerceCategory_contract "정치").2.1 (by decide)⟩

/-- Operation behaviour: the request succeeds with a payload holding the
three schema fields plus an extra one. -/
def opRichPayload : Nat → Except GenError GenerateContentResponse :=
  fun _ =>
    .ok ⟨some "\x7b\"title\":\"A\",\"content\":\"B\",\"category\":\"정치\",\"extra\":5\x7d"⟩

/-- Claim C10: on every successful generation whose payload parses as an
object, `generateRandomArticle` returns a value of the three-key record type
`RandomArticleResult` (exactly `title`, `content`, `category`): any further
members of the payload are discarded, and the `title` and `content` members
are copied verbatim from the parsed payload — including being left absent
when missing — with no validation or transformation. -/
theorem generateRandomArticle_verbatim_copy (article : Article) (currentYear : Int)
    (op : Nat → Except GenError GenerateContentResponse) (t : String)
    (fs : List (String × JsValue))
    (hok : (retryRequest op 3 2000 0).result = .ok ⟨some t⟩)
    (hne : t.isEmpty = false)
    (hparse : jsonParse t = some (.obj fs)) :
    (generateRandomArticle article currentYear op).title = lookupField fs "title" ∧
    (generateRandomArticle article currentYear op).content = lookupField fs "content" ∧
    (generateRandomArticle article currentYear op).category =
      coerceCategory (lookupField fs "category") := by
  rw [generateRandomArticle_parsed_obj article currentYear op t fs hok hne hparse]
  exact ⟨rfl, rfl, rfl⟩

/-- Witness for C10: on a concrete payload with an extra member, the result
copies `title` and `content` verbatim, keeps the valid category, and the
extra member is gone. -/
theorem generateRandomArticle_verbatim_copy_witness :
    (generateRandomArticle articleBase 2026 opRichPayload).title = some (.str "A") ∧
    (generateRandomArticle articleBase 2026 opRichPayload).content = some (.str "B") ∧
    (generateRandomArticle articleBase 2026 opRichPayload).category =
      ArticleCategory.POLITICS := by
  have h := generateRandomArticle_verbatim_copy articleBase 2026 opRichPayload
    "\x7b\"title\":\"A\",\"content\":\"B\",\"category\":\"정치\",\"extra\":5\x7d"
    [("title", .str "A"), ("content", .str "B"), ("category", .str "정치"),
      ("extra", .num 5)]
    rfl rfl rfl
  exact ⟨h.1, h.2.1, h.2.2⟩
